import Mathlib

/-!
Shallow embedding of the convey push-to-talk dictation pipeline
(src/workflow.rs, src/audio.rs, src/ui/mod.rs, src/fn_key_monitor.rs).

Text is modelled as `List Char` (Rust `String`/`&str`); the fallible
external collaborators (recorder stop, settings load, Whisper
transcription, API-key lookup, AI cleanup, history insert, clipboard
operations) are modelled by an environment record of `Except` outcomes,
since the Rust code converts every error to `String` via
`map_err(|e| e.to_string())`.  Side effects of one workflow run
(history inserts, clipboard calls, temp-file removals, logged soft
errors) are collected in an explicit `Effects` record.
-/

namespace Convey

/-- Error values: the Rust workflow converts every error to `String`. -/
abbrev Err := String

/-! ### detect_and_strip_enter_command (src/workflow.rs lines 12-45) -/

/-- The trailing characters stripped before phrase matching
(`text.trim_end_matches(&['.', '!', '?', ',', ';', ' '][..])`). -/
def trailingPunct : List Char := ['.', '!', '?', ',', ';', ' ']

/-- Rust `str::trim_end_matches` with a character-set pattern:
repeatedly drop trailing characters belonging to the set. -/
def rustTrimEndMatches (cs : List Char) (set : List Char) : List Char :=
  (cs.reverse.dropWhile (fun c => set.contains c)).reverse

/-- Rust `str::trim_end`: drop trailing whitespace.  (Rust trims Unicode
whitespace; the texts relevant here are ASCII, where `Char.isWhitespace`
agrees.) -/
def rustTrimEnd (cs : List Char) : List Char :=
  (cs.reverse.dropWhile Char.isWhitespace).reverse

/-- The fixed phrase list of `detect_and_strip_enter_command`, in source
order. -/
def enterPatterns : List (List Char) :=
  [ "and press enter".toList
  , "and hit enter".toList
  , "and press return".toList
  , "and hit return".toList
  , "then press enter".toList
  , "then hit enter".toList
  , "and present enter".toList
  , "and presence enter".toList
  , "and pressing enter".toList
  , "and president enter".toList
  , "then present enter".toList
  , "then pressing enter".toList ]

/-- Embeds `detect_and_strip_enter_command` (src/workflow.rs lines 12-45):
strip trailing punctuation, lowercase (Rust `to_lowercase`; on the ASCII
texts involved this is `Char.toLower`), look for the first phrase that is
a suffix, and if found cut it off and trim trailing whitespace.
Returns `(cleaned_text, should_press_enter)`. -/
def detectAndStripEnterCommand (text : List Char) : List Char × Bool :=
  let trimmed := rustTrimEndMatches text trailingPunct
  let trimmedLower := trimmed.map Char.toLower
  match enterPatterns.find? (fun p => p.isSuffixOf trimmedLower) with
  | some p => (rustTrimEnd (trimmed.take (trimmed.length - p.length)), true)
  | none => (text, false)

/-! ### Workflow environment and effects (src/workflow.rs lines 47-185) -/

/-- The settings fields consumed by the workflow (src/storage.rs
`AppSettings`, as read in src/workflow.rs). -/
structure AppSettings where
  ai_processing_enabled : Bool
  recognize_press_enter : Bool
  auto_paste : Bool
  auto_paste_and_enter : Bool
  deriving Repr, DecidableEq

/-- Outcomes of the external collaborators during one workflow run.
`stopResult` carries the audio path returned by `recorder.stop()`. -/
structure WorkflowEnv where
  stopResult : Except Err String
  settingsResult : Except Err AppSettings
  whisperResult : Except Err String
  apiKeyResult : Except Err String
  aiResult : Except Err String
  historyResult : Except Err Unit
  copyResult : Except Err Unit
  pasteResult : Except Err Unit
  pasteEnterResult : Except Err Unit
  deriving Repr

/-- Observable side effects of one workflow run.  `insertAttempts` records
each call of `history.insert_transcription` (text, processed text);
`copyAttempts` records each call of `clipboard.copy_text`;
`pasteCalls` and `pasteEnterCalls` record the paste helpers;
`removedFiles` records `std::fs::remove_file` calls; `softErrors`
records failures that are only logged, never propagated. -/
structure Effects where
  insertAttempts : List (String × Option String)
  copyAttempts : List String
  pasteCalls : List String
  pasteEnterCalls : List String
  removedFiles : List String
  softErrors : List String
  deriving Repr

/-- The run starts with no effects performed. -/
def Effects.empty : Effects := ⟨[], [], [], [], [], []⟩

/-- Embeds `transcribe_audio` (src/workflow.rs lines 112-185): Whisper
transcription, then (if enabled) API-key lookup and AI cleanup — any
failure of which is propagated with `?` — then the history insert, whose
failure is also propagated with `?`.  Returns the final text. -/
def transcribeAudio (env : WorkflowEnv) (settings : AppSettings) :
    Except Err String × Effects :=
  match env.whisperResult with
  | .error e => (.error e, Effects.empty)
  | .ok transcribed =>
    let afterAI : Except Err (String × Option String) :=
      if settings.ai_processing_enabled then
        match env.apiKeyResult with
        | .error e =>
          .error ("Please set your OpenAI API key in settings for AI processing: " ++ e)
        | .ok _ =>
          match env.aiResult with
          | .error e => .error e
          | .ok processed => .ok (processed, some processed)
      else .ok (transcribed, none)
    match afterAI with
    | .error e => (.error e, Effects.empty)
    | .ok (finalTranscribed, processed) =>
      let eff := { Effects.empty with insertAttempts := [(finalTranscribed, processed)] }
      match env.historyResult with
      | .error e => (.error e, eff)
      | .ok _ => (.ok finalTranscribed, eff)

/-- The clipboard block of `stop_recording_and_transcribe`
(src/workflow.rs lines 82-104): copy when auto-paste is configured or the
final text is nonempty; a copy failure is only logged; on success,
paste-and-enter or paste according to configuration and the detected
submit flag, with failures only logged. -/
def clipboardStage (env : WorkflowEnv) (settings : AppSettings)
    (finalText : String) (shouldPressEnter : Bool) (eff : Effects) : Effects :=
  if settings.auto_paste || settings.auto_paste_and_enter || !finalText.isEmpty then
    let eff := { eff with copyAttempts := eff.copyAttempts ++ [finalText] }
    match env.copyResult with
    | .error e => { eff with softErrors := eff.softErrors ++ ["copy failed: " ++ e] }
    | .ok _ =>
      if settings.auto_paste_and_enter || (shouldPressEnter && settings.auto_paste) then
        match env.pasteEnterResult with
        | .error e =>
          { eff with softErrors := eff.softErrors ++ ["paste-and-enter failed: " ++ e] }
        | .ok _ => { eff with pasteEnterCalls := eff.pasteEnterCalls ++ [finalText] }
      else if settings.auto_paste then
        match env.pasteResult with
        | .error e => { eff with softErrors := eff.softErrors ++ ["paste failed: " ++ e] }
        | .ok _ => { eff with pasteCalls := eff.pasteCalls ++ [finalText] }
      else eff
  else eff

/-- Embeds `stop_recording_and_transcribe` (src/workflow.rs lines 58-110):
stop the recorder, load settings, run `transcribe_audio` (whose failure
propagates with `?` before any later stage runs), detect the voice
command, run the clipboard block, remove the temporary audio file, and
return the transcribed text. -/
def stopRecordingAndTranscribe (env : WorkflowEnv) : Except Err String × Effects :=
  match env.stopResult with
  | .error e => (.error e, Effects.empty)
  | .ok audioPath =>
    match env.settingsResult with
    | .error e => (.error e, Effects.empty)
    | .ok settings =>
      match transcribeAudio env settings with
      | (.error e, eff) => (.error e, eff)
      | (.ok transcribedText, eff) =>
        let fs :=
          if settings.recognize_press_enter then
            detectAndStripEnterCommand transcribedText.toList
          else (transcribedText.toList, false)
        let eff := clipboardStage env settings fs.1.asString fs.2 eff
        let eff := { eff with removedFiles := eff.removedFiles ++ [audioPath] }
        (.ok transcribedText, eff)

/-! ### Sample-format conversion (src/audio.rs lines 61-125)

Floating-point device samples are modelled as exact rationals; the Rust
numeric casts are modelled exactly: `as i16` on a float value saturates
at the signed 16-bit bounds and otherwise truncates toward zero, and
`as i16` on an `i32` wraps modulo 2^16 into the signed range. -/

/-- Truncation toward zero of a rational (what a Rust float-to-integer
cast does to an in-range value). -/
def ratTrunc (q : ℚ) : ℤ := if 0 ≤ q then ⌊q⌋ else ⌈q⌉

/-- Rust `v as i16` applied to a float value `v`: saturate at the
signed 16-bit bounds, otherwise truncate toward zero. -/
def f32AsI16 (q : ℚ) : ℤ := max (-32768) (min 32767 (ratTrunc q))

/-- The F32 capture-callback conversion (src/audio.rs line 69):
`(sample * i16::MAX as f32) as i16`. -/
def f32SampleToI16 (s : ℚ) : ℤ := f32AsI16 (s * 32767)

/-- Rust `x as i16` applied to an `i32`: two-complement wrap into
`[-32768, 32767]`. -/
def i32AsI16 (x : ℤ) : ℤ := (x + 32768) % 65536 - 32768

/-- The U16 capture-callback conversion (src/audio.rs line 110):
`(sample as i32 - 32768) as i16`, for a device sample `u < 65536`. -/
def u16SampleToI16 (u : ℕ) : ℤ := i32AsI16 ((u : ℤ) - 32768)

/-- Reading of the spec phrase under test for the float rule: the scaled
value is rounded in the direction of the sign of the input sample
(up for a nonnegative sample, down for a negative one). -/
def roundTowardSign (s : ℚ) (x : ℚ) : ℤ := if 0 ≤ s then ⌈x⌉ else ⌊x⌋

/-! ### AmplitudeMeter stores (src/audio.rs lines 61-125)

Each callback, while the recording flag is set, accumulates the absolute
normalized amplitude over the block; if the block is nonempty it stores
`((accum / len).min(1.0) * 1000.0) as u32` into the meter atomic.  The
accumulation happens inside `if let Some(writer)`, so when the writer is
absent the accumulator stays 0 but the store still happens. -/

/-- One block of device samples, in any of the three supported formats. -/
inductive SampleBlock where
  | f32 (data : List ℚ)
  | i16 (data : List ℤ)
  | u16 (data : List ℕ)
  deriving Repr

/-- Per-sample contribution to the amplitude accumulator:
F32 adds `sample.abs()`; I16 adds `(sample as f32 / i16::MAX as f32).abs()`;
U16 first converts the sample to i16 and then does the same. -/
def blockContribs : SampleBlock → List ℚ
  | .f32 d => d.map (fun s => |s|)
  | .i16 d => d.map (fun s => |(s : ℚ) / 32767|)
  | .u16 d => d.map (fun u => |((u16SampleToI16 u : ℚ)) / 32767|)

/-- Rust `v as u32` on a nonnegative-or-negative float value: negative
values saturate to 0, otherwise truncate toward zero. -/
def f32AsU32 (q : ℚ) : ℕ := (ratTrunc q).toNat

/-- The meter store performed by one callback invocation:
`none` when no store happens (not recording, or empty block), otherwise
the stored fixed-point value.  `writerPresent` models whether the shared
WAV writer still holds a writer (the accumulation loop runs only then). -/
def callbackStore (recording writerPresent : Bool) (b : SampleBlock) : Option ℕ :=
  if !recording then none
  else
    let n := (blockContribs b).length
    if n = 0 then none
    else
      let accum : ℚ := if writerPresent then (blockContribs b).sum else 0
      some (f32AsU32 (min (accum / n) 1 * 1000))

/-- All meter stores produced by a sequence of callback invocations, each
with its own recording/writer flags and sample block. -/
def meterStores (blocks : List (Bool × Bool × SampleBlock)) : List ℕ :=
  blocks.filterMap (fun rwb => callbackStore rwb.1 rwb.2.1 rwb.2.2)

/-! ### AudioRecorder state (src/audio.rs) -/

/-- The incremental WAV writer, reduced to the samples written so far. -/
structure WavWriter where
  samples : List ℤ
  deriving Repr, DecidableEq

/-- Embeds `AudioRecorder` (src/audio.rs lines 10-15): the shared recording
flag, the remembered output path, the optional shared writer cell
(`Option` around the `Arc<Mutex<Option<WavWriter>>>` content), and the
meter atomic. -/
structure AudioRecorder where
  recording : Bool
  output_path : Option String
  writer : Option (Option WavWriter)
  meter : ℕ
  deriving Repr, DecidableEq

/-- Embeds `AudioRecorder::new` (src/audio.rs lines 18-25). -/
def AudioRecorder.new : AudioRecorder :=
  { recording := false, output_path := none, writer := none, meter := 0 }

/-- Embeds `AudioRecorder::is_recording` (src/audio.rs lines 160-162). -/
def AudioRecorder.is_recording (r : AudioRecorder) : Bool := r.recording

/-- Outcomes of the fallible device/file steps inside
`AudioRecorder::start_recording`, in source order: default input device,
default input config (and device name), WAV-file creation, input-stream
construction (including a supported sample format), stream play. -/
structure StartEnv where
  deviceOk : Bool
  configOk : Bool
  wavCreateOk : Bool
  streamOk : Bool
  playOk : Bool
  deriving Repr, DecidableEq

/-- Embeds `AudioRecorder::start_recording` (src/audio.rs lines 27-133).  The
recording flag and the output path are set (lines 40-41) after the
device/config checks but before `WavWriter::create` (line 51); the
writer cell is set (line 54) before the stream is built and played.
No field is rolled back on a later failure. -/
def AudioRecorder.start_recording (r : AudioRecorder) (env : StartEnv)
    (path : String) : Except Err Unit × AudioRecorder :=
  if !env.deviceOk then (.error "No input device available", r)
  else if !env.configOk then (.error "Failed to get default input config", r)
  else
    let r := { r with recording := true, output_path := some path }
    if !env.wavCreateOk then (.error "Failed to create WAV file", r)
    else
      let r := { r with writer := some (some ⟨[]⟩) }
      if !env.streamOk then (.error "failed to build input stream", r)
      else if !env.playOk then (.error "failed to play stream", r)
      else (.ok (), r)

/-- Embeds `AudioRecorder::stop_recording` (src/audio.rs lines 135-158): clear
the recording flag, zero the meter, `take` the output path (failing with
"No recording in progress" when absent), then `take` the writer cell and
finalize the inner writer when present.  The third component counts
writer finalizations performed by this call (finalization modelled as
succeeding). -/
def AudioRecorder.stop_recording (r : AudioRecorder) :
    Except Err String × AudioRecorder × ℕ :=
  let r := { r with recording := false, meter := 0 }
  match r.output_path with
  | none => (.error "No recording in progress", r, 0)
  | some path =>
    let r := { r with output_path := none }
    match r.writer with
    | none => (.ok path, r, 0)
    | some w =>
      let r := { r with writer := none }
      match w with
      | none => (.ok path, r, 0)
      | some _ => (.ok path, r, 1)

/-! ### Hotkey polling and the recording-session state machine
(src/ui/mod.rs lines 284-341 and 609-641)

The `App` state is reduced to the fields the poll handler reads and
writes: `is_recording`, `is_processing`, and the capture-engine flag
`recorder_open` (what `services.recorder.is_recording()` returns, i.e.
whether a capture session is open).  The asynchronous
`Command::perform` chains are modelled as completing before the next
poll tick, with the capture start/stop collaborators succeeding:
a taken start branch performs `workflow::start_recording` (opening the
capture session) and then `Message::RecordingStarted(Ok)`
(`is_processing := false`, `is_recording := true`); a taken stop branch
sets `is_processing := true`, performs the stop workflow (closing the
capture session) and then `Message::RecordingStopped`
(`is_processing := false`, `is_recording := false`). -/

/-- A hotkey event, shared vocabulary of both input sources
(`global_hotkey::HotKeyState` and `FnKeyState`). -/
inductive HKState where
  | pressed
  | released
  deriving Repr, DecidableEq

/-- The poll-handler-relevant part of the `App` state. -/
structure UIState where
  is_recording : Bool
  is_processing : Bool
  recorder_open : Bool
  deriving Repr, DecidableEq

/-- The `App` starts Idle with no capture session open. -/
def initialUI : UIState :=
  { is_recording := false, is_processing := false, recorder_open := false }

/-- The recording-session state as the spec names it: Processing when
`is_processing`, else Recording when `is_recording`, else Idle. -/
inductive SessionState where
  | Idle
  | Recording
  | Processing
  deriving Repr, DecidableEq

/-- Map the `App` flags to the session state. -/
def sessionOf (s : UIState) : SessionState :=
  if s.is_processing then .Processing
  else if s.is_recording then .Recording
  else .Idle

/-- Embeds `App::start_recording_command` (src/ui/mod.rs lines 609-624), with
the spawned start workflow and its `RecordingStarted(Ok)` completion
applied.  Second component: number of capture-engine start calls. -/
def startRecordingCommand (s : UIState) : UIState × ℕ :=
  if s.is_processing || s.is_recording then (s, 0)
  else if s.recorder_open then ({ s with is_recording := true }, 0)
  else ({ s with recorder_open := true, is_recording := true, is_processing := false }, 1)

/-- Embeds `App::stop_recording_command` (src/ui/mod.rs lines 626-641), with
the spawned stop workflow and its `RecordingStopped` completion applied.
Second component: number of capture-engine stop calls. -/
def stopRecordingCommand (s : UIState) : UIState × ℕ :=
  if !s.is_recording || s.is_processing then (s, 0)
  else if !s.recorder_open then ({ s with is_recording := false }, 0)
  else ({ s with recorder_open := false, is_recording := false, is_processing := false }, 1)

/-- The action the poll handler takes on one observed event
(src/ui/mod.rs lines 293-306 and 325-338; the guard conditions are
identical on both source paths).  Components: next state, capture start
calls, capture stop calls. -/
def actOn (e : HKState) (s : UIState) : UIState × ℕ × ℕ :=
  match e with
  | .pressed =>
    if !s.is_recording && !s.is_processing then
      let sn := startRecordingCommand s
      (sn.1, sn.2, 0)
    else (s, 0, 0)
  | .released =>
    if s.is_recording && !s.is_processing then
      let sn := stopRecordingCommand s
      (sn.1, 0, sn.2)
    else (s, 0, 0)

/-- One `Message::PollHotkey` tick on the global-hotkey path
(src/ui/mod.rs lines 313-340): drain every pending event with the
`while let Ok(state) = guard.try_recv()` loop, then act on
`events.last()` only. -/
def pollTick (pending : List HKState) (s : UIState) : UIState × ℕ × ℕ :=
  match pending.getLast? with
  | none => (s, 0, 0)
  | some e => actOn e s

/-- One `Message::PollHotkey` tick on the Fn-key path (src/ui/mod.rs
lines 286-311): `FnKeyMonitor::try_recv` delivers at most ONE pending
event per tick (src/fn_key_monitor.rs lines 35-37), so the handler acts
on the oldest pending event and leaves the rest queued.  Last component:
the still-pending events after the tick. -/
def fnPollTick (pending : List HKState) (s : UIState) :
    UIState × ℕ × ℕ × List HKState :=
  match pending with
  | [] => (s, 0, 0, [])
  | e :: rest =>
    let a := actOn e s
    (a.1, a.2.1, a.2.2, rest)

/-- A run of successive poll ticks (global-hotkey path); each list entry
is the batch of events pending in that poll window.  Accumulates final
state, total capture start calls, total capture stop calls, and the
number of Idle-to-Recording transitions observed across ticks. -/
def runPolls (ticks : List (List HKState)) (s : UIState) :
    UIState × ℕ × ℕ × ℕ :=
  match ticks with
  | [] => (s, 0, 0, 0)
  | t :: rest =>
    let r := pollTick t s
    let tr := if sessionOf s = .Idle ∧ sessionOf r.1 = .Recording then 1 else 0
    let acc := runPolls rest r.1
    (acc.1, r.2.1 + acc.2.1, r.2.2 + acc.2.2.1, tr + acc.2.2.2)

/-- Embeds the `Message::RecordingStopped` handler (src/ui/mod.rs lines 220-239):
`is_processing := false` always, and `is_recording := false` on both the
success and the error branch. -/
def recordingStopped (result : Except Err String) (s : UIState) : UIState :=
  let s := { s with is_processing := false }
  match result with
  | .ok _ => { s with is_recording := false }
  | .error _ => { s with is_recording := false }

/-! ## Theorems -/

/-- The submit flag of `detect_and_strip_enter_command` is set exactly
when some listed phrase is a suffix of the lowercased,
punctuation-stripped text. -/
theorem detect_flag_iff (text : List Char) :
    (detectAndStripEnterCommand text).2 = true ↔
      ∃ p ∈ enterPatterns,
        p.isSuffixOf ((rustTrimEndMatches text trailingPunct).map Char.toLower) = true := by
  simp only [detectAndStripEnterCommand]
  rcases hfind : enterPatterns.find?
      (fun p => p.isSuffixOf ((rustTrimEndMatches text trailingPunct).map Char.toLower))
    with _ | p
  · simp only [hfind]
    constructor
    · intro h
      exact absurd h (by simp)
    · rintro ⟨q, hq, hsuf⟩
      exact absurd hsuf (List.find?_eq_none.mp hfind q hq)
  · simp only [hfind]
    constructor
    · intro _
      have hsuf := List.find?_some hfind
      exact ⟨p, List.mem_of_find?_eq_some hfind, hsuf⟩
    · intro _
      trivial

/-- C9: with recognition enabled,
"please call mom and press enter" yields "please call mom" with the
submit flag set, "the meeting is at the center" is returned unchanged
with the flag clear, and in general the flag is set exactly when one of
the fixed phrases — each prefixed by the conjunction "and" or "then" —
is a case-insensitive suffix of the text after stripping trailing
punctuation and whitespace. -/
theorem C9_voice_command_detection :
    detectAndStripEnterCommand "please call mom and press enter".toList
      = ("please call mom".toList, true)
  ∧ detectAndStripEnterCommand "the meeting is at the center".toList
      = ("the meeting is at the center".toList, false)
  ∧ (∀ text : List Char,
      (detectAndStripEnterCommand text).2 = true ↔
        ∃ p ∈ enterPatterns,
          p.isSuffixOf ((rustTrimEndMatches text trailingPunct).map Char.toLower) = true)
  ∧ (∀ p ∈ enterPatterns, p.take 4 = "and ".toList ∨ p.take 5 = "then ".toList) := by
  refine ⟨by decide, by decide, detect_flag_iff, by decide⟩

/-- Witness for C9 at concrete inputs: the iff instantiated at the first
example, and the conjunction-prefix fact at the first listed phrase. -/
theorem C9_voice_command_detection_witness :
    ((detectAndStripEnterCommand "please call mom and press enter".toList).2 = true ↔
      ∃ p ∈ enterPatterns,
        p.isSuffixOf
          ((rustTrimEndMatches "please call mom and press enter".toList trailingPunct).map
            Char.toLower) = true)
  ∧ (("and press enter".toList).take 4 = "and ".toList
      ∨ ("and press enter".toList).take 5 = "then ".toList) :=
  ⟨C9_voice_command_detection.2.2.1 "please call mom and press enter".toList,
   C9_voice_command_detection.2.2.2 "and press enter".toList (by decide)⟩

/-- C6 counterexample: at the input sample 1/2 the code truncates the
scaled value 16383.5 toward zero and yields 16383, while rounding toward
the sign of the input (a positive sample rounding upward) would yield
16384; so the stated float rounding rule fails at 1/2. -/
theorem C6_counterexample :
    f32SampleToI16 (1/2) = 16383
  ∧ roundTowardSign (1/2) ((1/2) * 32767) = 16384
  ∧ f32SampleToI16 (1/2) ≠ roundTowardSign (1/2) ((1/2) * 32767) := by
  have hfloor : ⌊(1/2 : ℚ) * 32767⌋ = 16383 := by
    rw [Int.floor_eq_iff]
    constructor <;> norm_num
  have hceil : ⌈(1/2 : ℚ) * 32767⌉ = 16384 := by
    rw [Int.ceil_eq_iff]
    constructor <;> norm_num
  have hpos : (0 : ℚ) ≤ 1/2 * 32767 := by norm_num
  have h1 : f32SampleToI16 (1/2) = 16383 := by
    unfold f32SampleToI16 f32AsI16 ratTrunc
    rw [if_pos hpos, hfloor]
    decide
  have h2 : roundTowardSign (1/2) ((1/2) * 32767) = 16384 := by
    unfold roundTowardSign
    rw [if_pos (by norm_num : (0 : ℚ) ≤ 1/2), hceil]
  exact ⟨h1, h2, by rw [h1, h2]; decide⟩

/-- C6 amended: floating-point samples are scaled by the maximum 16-bit
signed magnitude and truncated toward zero (with saturation at the
16-bit bounds), and unsigned 16-bit samples are converted by subtracting
the unsigned midpoint 32768 before being treated as signed. -/
theorem C6_amended_conversion_rules :
    (∀ s : ℚ, 0 ≤ s → f32SampleToI16 s = min 32767 ⌊s * 32767⌋)
  ∧ (∀ s : ℚ, s < 0 → f32SampleToI16 s = max (-32768) ⌈s * 32767⌉)
  ∧ (∀ u : ℕ, u < 65536 → u16SampleToI16 u = (u : ℤ) - 32768) := by
  refine ⟨?_, ?_, ?_⟩
  · intro s hs
    have h0 : (0 : ℚ) ≤ s * 32767 := by positivity
    have hge : (0 : ℤ) ≤ ⌊s * 32767⌋ := Int.floor_nonneg.mpr h0
    unfold f32SampleToI16 f32AsI16 ratTrunc
    rw [if_pos h0, max_eq_right]
    exact le_min (by norm_num) (by omega)
  · intro s hs
    have h0 : s * 32767 < 0 := mul_neg_of_neg_of_pos hs (by norm_num)
    have hle : ⌈s * 32767⌉ ≤ 0 := Int.ceil_le.mpr (by exact_mod_cast h0.le)
    unfold f32SampleToI16 f32AsI16 ratTrunc
    rw [if_neg (not_le.mpr h0), min_eq_right (by omega)]
  · intro u hu
    unfold u16SampleToI16 i32AsI16
    omega

/-- Witness for C6 amended at the samples 1/2, -(1/2) and 0. -/
theorem C6_amended_conversion_rules_witness :
    f32SampleToI16 (1/2) = min 32767 ⌊(1/2 : ℚ) * 32767⌋
  ∧ f32SampleToI16 (-(1/2)) = max (-32768) ⌈(-(1/2) : ℚ) * 32767⌉
  ∧ u16SampleToI16 0 = (0 : ℤ) - 32768 :=
  ⟨C6_amended_conversion_rules.1 (1/2) (by norm_num),
   C6_amended_conversion_rules.2.1 (-(1/2)) (by norm_num),
   C6_amended_conversion_rules.2.2 0 (by norm_num)⟩

/-- C4: after one successful start, the first stop finalizes the writer
exactly once and returns the destination path, and a second stop fails
with "No recording in progress" performing no further finalization. -/
theorem C4_stop_idempotent (env : StartEnv) (p : String)
    (hd : env.deviceOk = true) (hc : env.configOk = true)
    (hwv : env.wavCreateOk = true) (hs : env.streamOk = true)
    (hp : env.playOk = true) :
    ((AudioRecorder.new.start_recording env p).2.stop_recording).1 = .ok p
  ∧ ((AudioRecorder.new.start_recording env p).2.stop_recording).2.2 = 1
  ∧ (((AudioRecorder.new.start_recording env p).2.stop_recording).2.1.stop_recording).1
      = .error "No recording in progress"
  ∧ (((AudioRecorder.new.start_recording env p).2.stop_recording).2.1.stop_recording).2.2
      = 0 := by
  obtain ⟨d, c, wv, s, pl⟩ := env
  simp only at hd hc hwv hs hp
  subst hd hc hwv hs hp
  simp [AudioRecorder.new, AudioRecorder.start_recording, AudioRecorder.stop_recording]

/-- Witness for C4 at an all-successful start environment. -/
theorem C4_stop_idempotent_witness :
    ((AudioRecorder.new.start_recording ⟨true, true, true, true, true⟩ "/tmp/rec.wav").2.stop_recording).1
      = .ok "/tmp/rec.wav"
  ∧ ((AudioRecorder.new.start_recording ⟨true, true, true, true, true⟩ "/tmp/rec.wav").2.stop_recording).2.2
      = 1
  ∧ (((AudioRecorder.new.start_recording ⟨true, true, true, true, true⟩ "/tmp/rec.wav").2.stop_recording).2.1.stop_recording).1
      = .error "No recording in progress"
  ∧ (((AudioRecorder.new.start_recording ⟨true, true, true, true, true⟩ "/tmp/rec.wav").2.stop_recording).2.1.stop_recording).2.2
      = 0 :=
  C4_stop_idempotent ⟨true, true, true, true, true⟩ "/tmp/rec.wav" rfl rfl rfl rfl rfl

/-- C10: when the device and config steps succeed but WAV-file creation,
stream construction or stream play fails, start returns an error yet the
recording flag and output path are already set and are not rolled back;
a subsequent stop then succeeds and returns the path even though no
sample was ever written. -/
theorem C10_failed_start_not_rolled_back (env : StartEnv) (p : String)
    (hd : env.deviceOk = true) (hc : env.configOk = true)
    (hfail : env.wavCreateOk = false ∨ env.streamOk = false ∨ env.playOk = false) :
    (∃ e, (AudioRecorder.new.start_recording env p).1 = .error e)
  ∧ (AudioRecorder.new.start_recording env p).2.is_recording = true
  ∧ (AudioRecorder.new.start_recording env p).2.output_path = some p
  ∧ ((AudioRecorder.new.start_recording env p).2.stop_recording).1 = .ok p
  ∧ (∀ w, (AudioRecorder.new.start_recording env p).2.writer = some (some w) →
      w.samples = []) := by
  obtain ⟨d, c, wv, s, pl⟩ := env
  simp only at hd hc hfail
  subst hd hc
  cases wv <;> cases s <;> cases pl <;>
    simp_all [AudioRecorder.new, AudioRecorder.start_recording,
      AudioRecorder.stop_recording, AudioRecorder.is_recording]

/-- Witness for C10 at a failing WAV-file creation. -/
theorem C10_failed_start_not_rolled_back_witness :
    (∃ e, (AudioRecorder.new.start_recording ⟨true, true, false, true, true⟩ "/tmp/x.wav").1 = .error e)
  ∧ (AudioRecorder.new.start_recording ⟨true, true, false, true, true⟩ "/tmp/x.wav").2.is_recording = true
  ∧ (AudioRecorder.new.start_recording ⟨true, true, false, true, true⟩ "/tmp/x.wav").2.output_path
      = some "/tmp/x.wav"
  ∧ ((AudioRecorder.new.start_recording ⟨true, true, false, true, true⟩ "/tmp/x.wav").2.stop_recording).1
      = .ok "/tmp/x.wav"
  ∧ (∀ w, (AudioRecorder.new.start_recording ⟨true, true, false, true, true⟩ "/tmp/x.wav").2.writer
      = some (some w) → w.samples = []) :=
  C10_failed_start_not_rolled_back ⟨true, true, false, true, true⟩ "/tmp/x.wav" rfl rfl
    (Or.inl rfl)

/-- Settings with AI cleanup enabled and everything else off. -/
def settingsAIOn : AppSettings :=
  { ai_processing_enabled := true, recognize_press_enter := false
  , auto_paste := false, auto_paste_and_enter := false }

/-- Settings with every workflow option off. -/
def settingsAllOff : AppSettings :=
  { ai_processing_enabled := false, recognize_press_enter := false
  , auto_paste := false, auto_paste_and_enter := false }

/-- A run where transcription returns "hello world" and the AI cleanup
collaborator fails; every other collaborator succeeds. -/
def envCleanupFails : WorkflowEnv :=
  { stopResult := .ok "/tmp/rec.wav"
  , settingsResult := .ok settingsAIOn
  , whisperResult := .ok "hello world"
  , apiKeyResult := .ok "sk-test"
  , aiResult := .error "cleanup failed"
  , historyResult := .ok ()
  , copyResult := .ok ()
  , pasteResult := .ok ()
  , pasteEnterResult := .ok () }

/-- C1 counterexample: with cleanup enabled and the cleanup collaborator
failing on the transcription "hello world", the workflow returns the
cleanup error instead of completing, no text is copied to the clipboard,
no history record is attempted, and the temporary file is not removed —
the raw transcript is discarded, contrary to the claim. -/
theorem C1_counterexample :
    (stopRecordingAndTranscribe envCleanupFails).1 = .error "cleanup failed"
  ∧ (stopRecordingAndTranscribe envCleanupFails).2.copyAttempts = []
  ∧ (stopRecordingAndTranscribe envCleanupFails).2.insertAttempts = []
  ∧ (stopRecordingAndTranscribe envCleanupFails).2.removedFiles = [] :=
  ⟨rfl, rfl, rfl, rfl⟩

/-- C1 amended: when AI cleanup is enabled and the cleanup collaborator
fails, the whole workflow aborts with the cleanup error — the raw
transcribed text is neither persisted nor delivered and no effect of the
run is performed (the failure is a workflow abort, not a soft error). -/
theorem C1_amended_cleanup_failure_aborts (env : WorkflowEnv)
    (settings : AppSettings) (path t key e : String)
    (hstop : env.stopResult = .ok path)
    (hset : env.settingsResult = .ok settings)
    (hai : settings.ai_processing_enabled = true)
    (hw : env.whisperResult = .ok t)
    (hk : env.apiKeyResult = .ok key)
    (he : env.aiResult = .error e) :
    stopRecordingAndTranscribe env = (.error e, Effects.empty) := by
  simp [stopRecordingAndTranscribe, transcribeAudio, hstop, hset, hai, hw, hk, he]

/-- Witness for C1 amended at the concrete failing-cleanup run. -/
theorem C1_amended_cleanup_failure_aborts_witness :
    stopRecordingAndTranscribe envCleanupFails = (.error "cleanup failed", Effects.empty) :=
  C1_amended_cleanup_failure_aborts envCleanupFails settingsAIOn
    "/tmp/rec.wav" "hello world" "sk-test" "cleanup failed" rfl rfl rfl rfl rfl rfl

/-- A run where transcription returns "hello world" and the history
insert fails; every other collaborator succeeds. -/
def envPersistFails : WorkflowEnv :=
  { stopResult := .ok "/tmp/rec.wav"
  , settingsResult := .ok settingsAllOff
  , whisperResult := .ok "hello world"
  , apiKeyResult := .ok ""
  , aiResult := .ok ""
  , historyResult := .error "db insert failed"
  , copyResult := .ok ()
  , pasteResult := .ok ()
  , pasteEnterResult := .ok () }

/-- C2 counterexample: transcription succeeds but the history insert
fails, and the workflow returns the persistence error without ever
attempting the clipboard copy (and without removing the temporary file) —
persistence failure does block delivery, contrary to the claim. -/
theorem C2_counterexample :
    (stopRecordingAndTranscribe envPersistFails).1 = .error "db insert failed"
  ∧ (stopRecordingAndTranscribe envPersistFails).2.insertAttempts
      = [("hello world", none)]
  ∧ (stopRecordingAndTranscribe envPersistFails).2.copyAttempts = []
  ∧ (stopRecordingAndTranscribe envPersistFails).2.removedFiles = [] :=
  ⟨rfl, rfl, rfl, rfl⟩

/-- C2 amended: a failure of the history insert aborts the workflow with
the persistence error before delivery — the clipboard copy is not
attempted — while the `RecordingStopped` handler still returns the
session to Idle on the error result. -/
theorem C2_amended_persistence_failure_blocks_delivery (env : WorkflowEnv)
    (settings : AppSettings) (path t e : String)
    (hstop : env.stopResult = .ok path)
    (hset : env.settingsResult = .ok settings)
    (hai : settings.ai_processing_enabled = false)
    (hw : env.whisperResult = .ok t)
    (hh : env.historyResult = .error e) :
    (stopRecordingAndTranscribe env).1 = .error e
  ∧ (stopRecordingAndTranscribe env).2.copyAttempts = []
  ∧ (∀ s : UIState, sessionOf (recordingStopped (.error e) s) = .Idle) := by
  refine ⟨?_, ?_, ?_⟩
  · simp [stopRecordingAndTranscribe, transcribeAudio, hstop, hset, hai, hw, hh]
  · simp [stopRecordingAndTranscribe, transcribeAudio, hstop, hset, hai, hw, hh,
      Effects.empty]
  · intro s
    simp [recordingStopped, sessionOf]

/-- Witness for C2 amended at the concrete failing-persistence run. -/
theorem C2_amended_persistence_failure_blocks_delivery_witness :
    (stopRecordingAndTranscribe envPersistFails).1 = .error "db insert failed"
  ∧ (stopRecordingAndTranscribe envPersistFails).2.copyAttempts = []
  ∧ (∀ s : UIState,
      sessionOf (recordingStopped (.error "db insert failed") s) = .Idle) :=
  C2_amended_persistence_failure_blocks_delivery envPersistFails settingsAllOff
    "/tmp/rec.wav" "hello world" "db insert failed" rfl rfl rfl rfl rfl

/-- A run where the transcription collaborator fails; every other
collaborator succeeds. -/
def envWhisperFails : WorkflowEnv :=
  { stopResult := .ok "/tmp/rec.wav"
  , settingsResult := .ok settingsAllOff
  , whisperResult := .error "whisper failed"
  , apiKeyResult := .ok ""
  , aiResult := .ok ""
  , historyResult := .ok ()
  , copyResult := .ok ()
  , pasteResult := .ok ()
  , pasteEnterResult := .ok () }

/-- C3 counterexample: when the transcription stage fails, the workflow
returns the transcription error without removing the temporary audio
file — the file survives the aborted run, contrary to the claim. -/
theorem C3_counterexample :
    (stopRecordingAndTranscribe envWhisperFails).1 = .error "whisper failed"
  ∧ (stopRecordingAndTranscribe envWhisperFails).2.removedFiles = [] :=
  ⟨rfl, rfl⟩

/-- The `transcribe_audio` stage never removes a file. -/
theorem transcribeAudio_removedFiles (env : WorkflowEnv) (settings : AppSettings) :
    (transcribeAudio env settings).2.removedFiles = [] := by
  unfold transcribeAudio
  rcases env.whisperResult with _ | t
  · rfl
  · rcases hai : settings.ai_processing_enabled with _ | _ <;>
      simp only [hai, Bool.false_eq_true, if_false, if_true] <;>
      [skip; rcases env.apiKeyResult with _ | k]
    · rcases env.historyResult with _ | _ <;> rfl
    · rfl
    · rcases env.aiResult with _ | pr
      · rfl
      · rcases env.historyResult with _ | _ <;> rfl

/-- The clipboard block never removes a file: it only appends to the
clipboard-related effect lists. -/
theorem clipboardStage_removedFiles (env : WorkflowEnv) (settings : AppSettings)
    (finalText : String) (shouldPressEnter : Bool) (eff : Effects) :
    (clipboardStage env settings finalText shouldPressEnter eff).removedFiles
      = eff.removedFiles := by
  unfold clipboardStage
  rcases env.copyResult with _ | _ <;> rcases env.pasteResult with _ | _ <;>
    rcases env.pasteEnterResult with _ | _ <;>
    rcases settings.auto_paste with _ | _ <;>
    rcases settings.auto_paste_and_enter with _ | _ <;>
    rcases shouldPressEnter with _ | _ <;>
    rcases finalText.isEmpty with _ | _ <;> rfl

/-- C3 amended: the temporary audio file is removed exactly on the runs
that reach the delivery stage (transcription, optional cleanup and
persistence all succeeded); in particular, when the transcription stage
fails the workflow aborts without deleting the file. -/
theorem C3_amended_temp_file_removed_only_on_success (env : WorkflowEnv)
    (settings : AppSettings) (path : String)
    (hstop : env.stopResult = .ok path)
    (hset : env.settingsResult = .ok settings) :
    (∀ e, env.whisperResult = .error e →
      (stopRecordingAndTranscribe env).1 = .error e
      ∧ (stopRecordingAndTranscribe env).2.removedFiles = [])
  ∧ (∀ t, (transcribeAudio env settings).1 = .ok t →
      (stopRecordingAndTranscribe env).2.removedFiles = [path]) := by
  constructor
  · intro e he
    constructor <;>
      simp [stopRecordingAndTranscribe, transcribeAudio, hstop, hset, he,
        Effects.empty]
  · intro t ht
    have hrem := transcribeAudio_removedFiles env settings
    rcases htr : transcribeAudio env settings with ⟨res, eff⟩
    rw [htr] at ht hrem
    have hres : res = Except.ok t := ht
    have hre : eff.removedFiles = [] := hrem
    subst hres
    unfold stopRecordingAndTranscribe
    rw [hstop, hset]
    dsimp only
    rw [htr]
    simp [clipboardStage_removedFiles, hre]

/-- Witness for C3 amended: the failing-transcription run keeps the file,
and the all-successful run removes it. -/
theorem C3_amended_temp_file_removed_only_on_success_witness :
    ((stopRecordingAndTranscribe envWhisperFails).1 = .error "whisper failed"
      ∧ (stopRecordingAndTranscribe envWhisperFails).2.removedFiles = [])
  ∧ (stopRecordingAndTranscribe
      { envWhisperFails with whisperResult := .ok "hello world" }).2.removedFiles
      = ["/tmp/rec.wav"] :=
  ⟨(C3_amended_temp_file_removed_only_on_success envWhisperFails settingsAllOff
      "/tmp/rec.wav" rfl rfl).1 "whisper failed" rfl,
   (C3_amended_temp_file_removed_only_on_success
      { envWhisperFails with whisperResult := .ok "hello world" } settingsAllOff
      "/tmp/rec.wav" rfl rfl).2 "hello world" rfl⟩

/-- The u32 cast of a rational bounded by 1000 is bounded by 1000. -/
theorem f32AsU32_le (q : ℚ) (h : q ≤ 1000) : f32AsU32 q ≤ 1000 := by
  unfold f32AsU32 ratTrunc
  split
  · have h1 : ⌊q⌋ ≤ ⌊(1000 : ℚ)⌋ := Int.floor_le_floor h
    have h2 : ⌊(1000 : ℚ)⌋ = 1000 := by norm_num
    apply Int.toNat_le.mpr
    omega
  · have h1 : ⌈q⌉ ≤ (0 : ℤ) := by
      apply Int.ceil_le.mpr
      push_cast
      linarith [not_le.mp (by assumption : ¬ (0 : ℚ) ≤ q)]
    apply Int.toNat_le.mpr
    omega

/-- Every value a capture callback stores into the meter is at most
1000: the block average is clamped by `.min(1.0)` before the fixed-point
scaling. -/
theorem callbackStore_le (rec w : Bool) (b : SampleBlock) (v : ℕ)
    (h : callbackStore rec w b = some v) : v ≤ 1000 := by
  have key : ∀ x : ℚ, f32AsU32 (min x 1 * 1000) ≤ 1000 := by
    intro x
    apply f32AsU32_le
    have hmin : min x 1 ≤ (1 : ℚ) := min_le_right _ _
    calc min x 1 * 1000 ≤ 1 * 1000 := mul_le_mul_of_nonneg_right hmin (by norm_num)
      _ = 1000 := by norm_num
  cases rec
  · simp [callbackStore] at h
  · by_cases hn : (blockContribs b).length = 0
    · simp [callbackStore, hn] at h
    · simp only [callbackStore, Bool.not_true, Bool.false_eq_true, if_false, hn,
        Option.some.injEq] at h
      rw [← h]
      exact key _

/-- C5: every value the capture callbacks store into the AmplitudeMeter
atomic — for any sequence of blocks in any of the three sample formats,
including all-zero and full-scale blocks — lies in the fixed-point range
[0, 1000] (the values are naturals, so 0 is a lower bound by
construction), and stop_recording stores 0 into the meter. -/
theorem C5_meter_range :
    (∀ blocks : List (Bool × Bool × SampleBlock), ∀ v ∈ meterStores blocks, v ≤ 1000)
  ∧ (∀ r : AudioRecorder, (r.stop_recording).2.1.meter = 0) := by
  constructor
  · intro blocks v hv
    obtain ⟨rwb, _, hsome⟩ := List.mem_filterMap.mp hv
    exact callbackStore_le rwb.1 rwb.2.1 rwb.2.2 v hsome
  · intro r
    obtain ⟨rc, op, wr, m⟩ := r
    rcases op with _ | p <;> rcases wr with _ | w <;> try rfl
    rcases w with _ | w₂ <;> rfl

/-- Witness for C5 at a one-block run whose average clamps to 1.0. -/
theorem C5_meter_range_witness :
    1000 ∈ meterStores [(true, true, SampleBlock.f32 [1])] ∧ 1000 ≤ 1000 := by
  have hms : meterStores [(true, true, SampleBlock.f32 [1])] = [1000] := by
    simp [meterStores, callbackStore, blockContribs, f32AsU32, ratTrunc]
  have hmem : 1000 ∈ meterStores [(true, true, SampleBlock.f32 [1])] := by
    rw [hms]
    exact List.mem_singleton.mpr rfl
  exact ⟨hmem, C5_meter_range.1 _ 1000 hmem⟩

/-- A poll tick performs a capture start only from Idle with no open
capture session. -/
theorem pollTick_start_guard (pending : List HKState) (s : UIState)
    (h : 1 ≤ (pollTick pending s).2.1) :
    sessionOf s = .Idle ∧ s.recorder_open = false := by
  obtain ⟨a, b, c⟩ := s
  unfold pollTick at h
  rcases hL : pending.getLast? with _ | ev <;> rw [hL] at h
  · simp at h
  · rcases ev <;> cases a <;> cases b <;> cases c <;>
      simp_all [actOn, startRecordingCommand, stopRecordingCommand, sessionOf]

/-- A poll tick performs a capture stop only from Recording. -/
theorem pollTick_stop_guard (pending : List HKState) (s : UIState)
    (h : 1 ≤ (pollTick pending s).2.2) : sessionOf s = .Recording := by
  obtain ⟨a, b, c⟩ := s
  unfold pollTick at h
  rcases hL : pending.getLast? with _ | ev <;> rw [hL] at h
  · simp at h
  · rcases ev <;> cases a <;> cases b <;> cases c <;>
      simp_all [actOn, startRecordingCommand, stopRecordingCommand, sessionOf]

/-- Reachability invariant of the poll loop: the capture session is open
exactly while the UI records, and no processing window is pending
between ticks. -/
def uiInv (s : UIState) : Prop :=
  s.recorder_open = s.is_recording ∧ s.is_processing = false

/-- Across any run of poll ticks from an invariant state, the number of
capture-engine start calls equals the number of Idle-to-Recording
transitions. -/
theorem runPolls_starts_eq_transitions (ticks : List (List HKState)) (s : UIState)
    (h : uiInv s) : (runPolls ticks s).2.1 = (runPolls ticks s).2.2.2 := by
  induction ticks generalizing s with
  | nil => rfl
  | cons t rest ih =>
    obtain ⟨a, b, c⟩ := s
    obtain ⟨h1, h2⟩ := h
    simp only at h1 h2
    subst h2
    rcases hL : t.getLast? with _ | ev
    · have hI := ih ⟨a, false, c⟩ ⟨h1, rfl⟩
      cases a <;> cases c <;>
        simp_all [runPolls, pollTick, hL, sessionOf]
    · rcases ev <;> cases a <;> cases c <;> simp_all <;>
        simp_all [runPolls, pollTick, hL, actOn, startRecordingCommand,
          stopRecordingCommand, sessionOf] <;>
        first
        | exact ih ⟨false, false, false⟩ ⟨rfl, rfl⟩
        | exact ih ⟨true, false, true⟩ ⟨rfl, rfl⟩

/-- C7: a Pressed event triggers a capture start only when the session
is Idle (and no capture session is open), a Released event triggers a
capture stop only when the session is Recording, and across every
sequence of poll windows starting from Idle the number of capture-engine
start calls equals the number of Idle-to-Recording transitions — hence
at most one capture session is ever open. -/
theorem C7_edge_triggered_polling :
    (∀ (pending : List HKState) (s : UIState), 1 ≤ (pollTick pending s).2.1 →
        sessionOf s = .Idle ∧ s.recorder_open = false)
  ∧ (∀ (pending : List HKState) (s : UIState), 1 ≤ (pollTick pending s).2.2 →
        sessionOf s = .Recording)
  ∧ (∀ ticks : List (List HKState),
        (runPolls ticks initialUI).2.1 = (runPolls ticks initialUI).2.2.2) :=
  ⟨pollTick_start_guard, pollTick_stop_guard,
   fun ticks => runPolls_starts_eq_transitions ticks initialUI ⟨rfl, rfl⟩⟩

/-- Witness for C7: a Pressed tick from Idle starts a capture, a
Released tick from Recording with an open session stops one. -/
theorem C7_edge_triggered_polling_witness :
    (sessionOf initialUI = .Idle ∧ initialUI.recorder_open = false)
  ∧ sessionOf ⟨true, false, true⟩ = .Recording :=
  ⟨C7_edge_triggered_polling.1 [HKState.pressed] initialUI (by decide),
   C7_edge_triggered_polling.2.1 [HKState.released] ⟨true, false, true⟩ (by decide)⟩

/-- C8 counterexample: in a poll window holding Pressed then Released,
the Fn-key path does not act on the folded final state: it starts a
recording (acting on the oldest event) and leaves Released still
pending, while acting on the most recent state only — what the
global-hotkey path does — leaves the Idle state unchanged. -/
theorem C8_counterexample :
    (fnPollTick [HKState.pressed, HKState.released] initialUI).1
      ≠ (pollTick [HKState.pressed, HKState.released] initialUI).1
  ∧ (fnPollTick [HKState.pressed, HKState.released] initialUI).2.2.2
      = [HKState.released]
  ∧ (fnPollTick [HKState.pressed, HKState.released] initialUI).1.is_recording = true
  ∧ (pollTick [HKState.pressed, HKState.released] initialUI).1 = initialUI := by
  decide

/-- C8 amended: on each poll tick the key-combination path drains every
pending event and its action depends only on the most recent one, while
the Fn-key path reads at most one pending event per tick: it acts on the
oldest pending event and leaves the remainder queued for later ticks. -/
theorem C8_amended_poll_discipline :
    (∀ (q₁ q₂ : List HKState) (s : UIState), q₁.getLast? = q₂.getLast? →
        pollTick q₁ s = pollTick q₂ s)
  ∧ (∀ (q : List HKState) (s : UIState), (fnPollTick q s).2.2.2 = q.drop 1)
  ∧ (∀ (e : HKState) (rest : List HKState) (s : UIState),
        (fnPollTick (e :: rest) s).1 = (actOn e s).1)
  ∧ (∀ s : UIState, fnPollTick [] s = (s, 0, 0, [])) := by
  refine ⟨?_, ?_, ?_, ?_⟩
  · intro q₁ q₂ s h
    unfold pollTick
    rw [h]
  · intro q s
    cases q <;> rfl
  · intro e rest s
    rfl
  · intro s
    rfl

/-- Witness for C8 amended: two queues with the same most recent event
produce the same tick result. -/
theorem C8_amended_poll_discipline_witness :
    pollTick [HKState.pressed, HKState.released] initialUI
      = pollTick [HKState.released] initialUI :=
  C8_amended_poll_discipline.1 [HKState.pressed, HKState.released]
    [HKState.released] initialUI rfl

end Convey
